import Mathlib

/-!
Shallow embedding of src/services/payment-service-rust.

Conventions:
* `uuid::Uuid` values are opaque 128-bit identifiers; they are modelled as
  `Nat`.  `chrono::DateTime<Utc>` values are modelled as `Nat` instants.
* Rust `&str`/`String` values are modelled as Lean `String`, except in the
  auth middleware, where the byte-level `str::strip_prefix` operation is
  modelled over `List Char`.
* `rust_decimal::Decimal` (exact decimal arithmetic) is modelled as `ℚ`;
  Rust `f64` is modelled as a rational constrained to the dyadic rationals,
  a superset of the finite `f64` values (every finite `f64` is `m * 2^(-e)`).
* The database (`sqlx::PgPool` plus the `payments` table) is modelled as an
  explicit state: the rows in insertion order plus a reachability flag that
  decides whether a `sqlx` call fails with a connection-level error.
  `fetch_one` on a SELECT returns the first matching row, or a
  row-not-found error.
* The outbound HTTP call of `reqwest` is modelled by an explicit transport
  outcome: either the send itself fails, or a response arrives carrying its
  `status().is_success()` bit and a body that either deserializes as the
  expected JSON shape or is malformed.
-/

/-- models.rs `PaymentStatus`. -/
inductive PaymentStatus
  | pending
  | processing
  | completed
  | failed
  | refunded
deriving DecidableEq

/-- models.rs `PaymentStatus::as_str`. -/
def PaymentStatus.as_str : PaymentStatus → String
  | .pending => "PENDING"
  | .processing => "PROCESSING"
  | .completed => "COMPLETED"
  | .failed => "FAILED"
  | .refunded => "REFUNDED"

/-- `uuid::Uuid`: an opaque 128-bit identifier, modelled as `Nat`. -/
abbrev Uuid := Nat

/-- `chrono::DateTime<Utc>`, modelled as an abstract instant. -/
abbrev Timestamp := Nat

/-- `q` is a dyadic rational, i.e. representable as a binary fraction
`m * 2^(-e)`.  Every finite Rust `f64` value has this form, so the value
space of `f64` is a subset of the dyadic rationals. -/
def isDyadic (q : ℚ) : Prop := ∃ (m : ℤ) (e : ℕ), q = m / 2 ^ e

/-- Model of the Rust `f64` type (as used for `amount` in dto.rs): a
rational constrained to the dyadic rationals. -/
abbrev F64 := { q : ℚ // isDyadic q }

/-- models.rs `Payment` (`amount: rust_decimal::Decimal`, modelled as `ℚ`). -/
structure Payment where
  id : Uuid
  order_id : Uuid
  user_id : Uuid
  amount : ℚ
  currency : String
  payment_method : String
  payment_status : String
  transaction_id : Option String
  created_at : Timestamp
  updated_at : Timestamp
deriving DecidableEq

/-- dto.rs `CreatePaymentRequest` (`amount: f64`). -/
structure CreatePaymentRequest where
  order_id : Uuid
  user_id : Uuid
  amount : F64
  currency : String
  payment_method : String

/-- dto.rs `PaymentResponse`.  dto.rs declares `amount: f64`, while the
handlers copy `payment.amount` (a `Decimal`) into this field unconverted;
the value is therefore carried here unchanged as `ℚ` (the f64/Decimal
mismatch of the source is recorded at claim C5). -/
structure PaymentResponse where
  id : Uuid
  order_id : Uuid
  user_id : Uuid
  amount : ℚ
  currency : String
  payment_method : String
  payment_status : String
  transaction_id : Option String
  created_at : String
  updated_at : String

/-- dto.rs `ApiResponse<T>`. -/
structure ApiResponse (T : Type) where
  success : Bool
  message : String
  data : Option T

/-- dto.rs `ApiResponse::success` (named `mkSuccess` here because `success`
is already the field's name). -/
def ApiResponse.mkSuccess {T : Type} (d : T) : ApiResponse T :=
  ⟨true, "Success", some d⟩

/-- dto.rs `ApiResponse::error` (named `mkError` for symmetry). -/
def ApiResponse.mkError {T : Type} (message : String) : ApiResponse T :=
  ⟨false, message, none⟩

/-- A hexadecimal digit character (lowercase). -/
def hexChar (n : Nat) : Char :=
  if n < 10 then Char.ofNat (48 + n) else Char.ofNat (87 + n)

/-- The 36 characters of the hyphenated `uuid::Uuid::to_string` form:
32 hex digits in groups of 8-4-4-4-12. -/
def uuidChars (u : Nat) : List Char :=
  let h := (List.range 32).map fun i => hexChar (u / 16 ^ (31 - i) % 16)
  h.take 8 ++ '-' :: (h.drop 8).take 4 ++ '-' :: (h.drop 12).take 4
    ++ '-' :: (h.drop 16).take 4 ++ '-' :: h.drop 20

/-- `uuid::Uuid::to_string`: the hyphenated textual form. -/
def uuidString (u : Uuid) : String := String.mk (uuidChars u)

/-- The `sqlx` errors the service code can observe through `?`:
`fetch_one` finding no row, or any connection-level failure. -/
inductive DbError
  | rowNotFound
  | connectionFailure
deriving DecidableEq

/-- Model of the `PgPool` plus the `payments` table: rows in insertion
order, and whether the persistence layer is reachable (the environment
deciding whether a `sqlx` call fails with a connection-level error). -/
structure Db where
  rows : List Payment
  healthy : Bool

/-- The row payment_service.rs `create_payment` INSERTs (and the row the
`RETURNING *` clause hands back): freshly generated id, the request's
fields, status `Completed.as_str()`, a fresh transaction reference from
`Uuid::new_v4().to_string()`, and the two `Utc::now()` readings. -/
def newPayment (request : CreatePaymentRequest) (freshId txUuid : Uuid)
    (now1 now2 : Timestamp) : Payment :=
  ⟨freshId, request.order_id, request.user_id, request.amount.val,
    request.currency, request.payment_method, PaymentStatus.completed.as_str,
    some (uuidString txUuid), now1, now2⟩

/-- payment_service.rs `create_payment`.  The `Uuid::new_v4()` values and
the two `Utc::now()` readings are environmental and passed explicitly. -/
def create_payment (db : Db) (request : CreatePaymentRequest)
    (freshId txUuid : Uuid) (now1 now2 : Timestamp) :
    Except DbError (Payment × Db) :=
  if db.healthy then
    .ok (newPayment request freshId txUuid now1 now2,
      { db with rows := db.rows ++ [newPayment request freshId txUuid now1 now2] })
  else .error .connectionFailure

/-- payment_service.rs `get_payment`: `SELECT * FROM payments WHERE id = $1`
with `fetch_one`. -/
def get_payment (db : Db) (id : Uuid) : Except DbError Payment :=
  if db.healthy then
    match db.rows.find? (fun p => p.id == id) with
    | some p => .ok p
    | none => .error .rowNotFound
  else .error .connectionFailure

/-- payment_service.rs `get_payment_by_order`:
`SELECT * FROM payments WHERE order_id = $1` with `fetch_one`. -/
def get_payment_by_order (db : Db) (order_id : Uuid) : Except DbError Payment :=
  if db.healthy then
    match db.rows.find? (fun p => p.order_id == order_id) with
    | some p => .ok p
    | none => .error .rowNotFound
  else .error .connectionFailure

/-- user_client.rs `TokenData` (the `data` object of the authority's
payload). -/
structure TokenData where
  valid : Bool
  user_id : String
  email : String
deriving DecidableEq

/-- user_client.rs `ValidateTokenResponse` (`data` is `Option`al, so a
payload without a `data` member still deserializes). -/
structure ValidateTokenResponse where
  status : String
  data : Option TokenData
deriving DecidableEq

/-- The body of an authority response as `response.json()` sees it: it
either deserializes as `ValidateTokenResponse` or deserialization fails. -/
inductive RespBody
  | parsed (r : ValidateTokenResponse)
  | malformed
deriving DecidableEq

/-- Model of `reqwest::Response`: the `status().is_success()` bit and the
body. -/
structure HttpResponse where
  isSuccess : Bool
  body : RespBody
deriving DecidableEq

/-- Outcome of `client.post(url).send()`: a response arrived, or the
transport call itself could not complete (timeout, refused, DNS). -/
inductive Transport
  | response (r : HttpResponse)
  | unreachable
deriving DecidableEq

/-- The two kinds of `anyhow` errors `validate_token` can return through
`?`: the `send()` failure and the `response.json()` decode failure. -/
inductive ClientError
  | sendFailure
  | decodeFailure
deriving DecidableEq

/-- user_client.rs `UserServiceClient::validate_token`, as a function of
the transport outcome of its one network call. -/
def validate_token : Transport → Except ClientError Bool
  | .unreachable => .error .sendFailure
  | .response resp =>
    if resp.isSuccess then
      match resp.body with
      | .malformed => .error .decodeFailure
      | .parsed result =>
        .ok (result.status == "success"
          && (result.data.map (fun d => d.valid)).getD false)
    else .ok false

/-- user_client.rs `UserServiceClient::get_user_id_from_token` (the spec's
`resolveSubject`), as a function of the transport outcome. -/
def get_user_id_from_token : Transport → Except ClientError (Option String)
  | .unreachable => .error .sendFailure
  | .response resp =>
    if resp.isSuccess then
      match resp.body with
      | .malformed => .error .decodeFailure
      | .parsed result => .ok (result.data.map (fun d => d.user_id))
    else .ok none

/-- An `Authorization` header value as the middleware sees it:
`HeaderValue::to_str()` succeeds giving the characters, or fails. -/
inductive HeaderValue
  | valid (chars : List Char)
  | invalid

/-- The characters of the literal prefix `"Bearer "` of auth.rs. -/
def bearerChars : List Char := ['B', 'e', 'a', 'r', 'e', 'r', ' ']

/-- Rust `str::strip_prefix` over the character sequence. -/
def stripPre (p s : List Char) : Option (List Char) :=
  if p.isPrefixOf s then some (s.drop p.length) else none

/-- auth.rs token extraction:
`headers.get("Authorization").and_then(to_str().ok()).and_then(strip "Bearer ")`. -/
def extractToken (auth : Option HeaderValue) : Option (List Char) :=
  match auth with
  | some (.valid v) => stripPre bearerChars v
  | some .invalid => none
  | none => none

/-- What auth.rs `auth_middleware` decides: reject with 401, or forward the
request (run `next`). -/
inductive AuthDecision
  | unauthorized
  | forwarded (token : List Char)

/-- auth.rs `auth_middleware`, given the request's `Authorization` header
and the user-service validation outcome for each token (the environment
behind `user_client.validate_token`). -/
def auth_middleware (auth : Option HeaderValue)
    (validate : List Char → Except ClientError Bool) : AuthDecision :=
  match extractToken auth with
  | none => .unauthorized
  | some token =>
    match validate token with
    | .error _ => .unauthorized
    | .ok false => .unauthorized
    | .ok true => .forwarded token

/-- The `axum::http::StatusCode` values the payment routes can produce. -/
inductive StatusCode
  | OK
  | UNAUTHORIZED
  | NOT_FOUND
  | INTERNAL_SERVER_ERROR
  | UNPROCESSABLE_ENTITY
deriving DecidableEq

/-- `chrono`'s `to_rfc3339` rendering, modelled as an abstract injective
rendering of the instant. -/
def to_rfc3339 (t : Timestamp) : String := toString t

/-- The `PaymentResponse` literal each handler in handlers/payment.rs
builds from a fetched `Payment`. -/
def paymentToResponse (payment : Payment) : PaymentResponse :=
  ⟨payment.id, payment.order_id, payment.user_id, payment.amount,
    payment.currency, payment.payment_method, payment.payment_status,
    payment.transaction_id, to_rfc3339 payment.created_at,
    to_rfc3339 payment.updated_at⟩

/-- handlers/payment.rs `get_payment`: any service error is mapped to
`StatusCode::NOT_FOUND`. -/
def handle_get_payment (db : Db) (id : Uuid) :
    Except StatusCode (ApiResponse PaymentResponse) :=
  match get_payment db id with
  | .error _ => .error .NOT_FOUND
  | .ok payment => .ok (ApiResponse.mkSuccess (paymentToResponse payment))

/-- handlers/payment.rs `get_payment_by_order`: any service error is
mapped to `StatusCode::NOT_FOUND`. -/
def handle_get_payment_by_order (db : Db) (order_id : Uuid) :
    Except StatusCode (ApiResponse PaymentResponse) :=
  match get_payment_by_order db order_id with
  | .error _ => .error .NOT_FOUND
  | .ok payment => .ok (ApiResponse.mkSuccess (paymentToResponse payment))

/-- A POST /api/payments request body as the `axum::Json` extractor sees
it: it deserializes into `CreatePaymentRequest` or the extractor rejects. -/
inductive JsonBody
  | parsed (r : CreatePaymentRequest)
  | malformed

/-- What goes back over the wire from a payment route: a response whose
body is the serialized envelope, or a bare status with a non-envelope body
(an `Err(StatusCode)` from a handler has an empty body, and the `Json`
extractor's rejection has a plain-text body; neither is the envelope). -/
inductive Wire
  | envelope (status : StatusCode) (body : ApiResponse PaymentResponse)
  | bare (status : StatusCode)

/-- The POST /api/payments route behind the router: the `axum::Json`
extractor runs first (a malformed body is rejected with a client-error
status and a plain rejection body, not the envelope), then
handlers/payment.rs `create_payment` runs, mapping a service error to
`StatusCode::INTERNAL_SERVER_ERROR`. -/
def create_payment_route (db : Db) (body : JsonBody)
    (freshId txUuid : Uuid) (now1 now2 : Timestamp) : Wire × Db :=
  match body with
  | .malformed => (.bare .UNPROCESSABLE_ENTITY, db)
  | .parsed request =>
    match create_payment db request freshId txUuid now1 now2 with
    | .error _ => (.bare .INTERNAL_SERVER_ERROR, db)
    | .ok (payment, db2) =>
      (.envelope .OK (ApiResponse.mkSuccess (paymentToResponse payment)), db2)

/-- The POST /api/payments route as actually wired in main.rs: the router
attaches only a permissive CORS layer to the payment routes —
`auth_middleware` is never installed (the `UserServiceClient` is built in
main and then left unused) — so the request's `Authorization` header is
ignored and the handler always runs. -/
def create_route_as_wired (db : Db) (_auth : Option HeaderValue)
    (body : JsonBody) (freshId txUuid : Uuid) (now1 now2 : Timestamp) :
    Wire × Db :=
  create_payment_route db body freshId txUuid now1 now2

/-- A concrete dyadic amount, 50. -/
def amountEx : F64 := ⟨50, 50, 0, by norm_num⟩

/-- A concrete creation request. -/
def reqEx : CreatePaymentRequest := ⟨1, 2, amountEx, "USD", "card"⟩

/-- A healthy, empty store. -/
def dbEx : Db := ⟨[], true⟩

/-- The record `create_payment dbEx reqEx 3 4 10 11` inserts and returns. -/
def paymentEx : Payment :=
  ⟨3, 1, 2, 50, "USD", "card", "COMPLETED", some (uuidString 4), 10, 11⟩

/-- The store after that create. -/
def dbEx2 : Db := ⟨[paymentEx], true⟩

/-- A store whose persistence layer is unreachable. -/
def downDb : Db := ⟨[], false⟩

/-- A success-shaped transport response whose payload fails to
deserialize. -/
def malformedOk : Transport := .response ⟨true, .malformed⟩

/-- A success-shaped transport response whose parsed payload reports
`status = "error"` yet carries a `data` object with a userId. -/
def badStatusPayload : Transport :=
  .response ⟨true, .parsed ⟨"error", some ⟨false, "user-1", "u@example.com"⟩⟩⟩

/-- An `Authorization` value with a lowercase scheme: `"bearer x"`. -/
def lowerBearer : List Char := ['b', 'e', 'a', 'r', 'e', 'r', ' ', 'x']

/-! ## Helper lemmas -/

/-- A `uuid::Uuid::to_string` rendering is never the empty string. -/
theorem uuidString_ne_empty (u : Uuid) : uuidString u ≠ "" := by
  intro h
  have h2 : uuidChars u = [] := congrArg String.data h
  simp [uuidChars] at h2

/-- `strip_prefix` succeeds exactly on strings that are the prefix
followed by the remainder it returns. -/
theorem stripPre_eq_some (p s tok : List Char) :
    stripPre p s = some tok ↔ s = p ++ tok := by
  unfold stripPre
  by_cases hp : p.isPrefixOf s = true
  · rw [if_pos hp]
    obtain ⟨u, rfl⟩ := List.isPrefixOf_iff_prefix.mp hp
    rw [List.drop_left]
    constructor
    · rintro h
      obtain rfl := Option.some.inj h
      rfl
    · intro h
      exact congrArg some (List.append_cancel_left h)
  · rw [if_neg hp]
    constructor
    · rintro ⟨⟩
    · rintro rfl
      exact absurd (List.isPrefixOf_iff_prefix.mpr (List.prefix_append p tok)) hp

/-- `find?` over rows extended with a fresh row finds exactly that row. -/
theorem find_append_fresh (rows : List Payment) (pay : Payment)
    (hfresh : ∀ q ∈ rows, q.id ≠ pay.id) :
    (rows ++ [pay]).find? (fun q => q.id == pay.id) = some pay := by
  induction rows with
  | nil => simp [List.find?]
  | cons r rs ih =>
    have hr : (r.id == pay.id) = false :=
      beq_eq_false_iff_ne.mpr (hfresh r (by simp))
    simp only [List.cons_append, List.find?_cons, hr]
    exact ih fun q hq => hfresh q (by simp [hq])

/-! ## Claim theorems -/

/-- C1: every successful run of the create operation returns a record
whose `payment_status` is `"COMPLETED"` and whose `transaction_id` is
present and a non-empty string. -/
theorem C1_create_completed_tx (db : Db) (req : CreatePaymentRequest)
    (i tx : Uuid) (t1 t2 : Timestamp) (p : Payment) (db2 : Db)
    (h : create_payment db req i tx t1 t2 = .ok (p, db2)) :
    p.payment_status = "COMPLETED" ∧
      ∃ s, p.transaction_id = some s ∧ s ≠ "" := by
  unfold create_payment at h
  split at h
  · simp only [Except.ok.injEq, Prod.mk.injEq] at h
    obtain ⟨rfl, -⟩ := h
    exact ⟨rfl, uuidString tx, rfl, uuidString_ne_empty tx⟩
  · exact absurd h (by simp)

/-- C1 witness: the concrete create on the healthy empty store. -/
theorem C1_create_completed_tx_wit :
    paymentEx.payment_status = "COMPLETED" ∧
      ∃ s, paymentEx.transaction_id = some s ∧ s ≠ "" :=
  C1_create_completed_tx dbEx reqEx 3 4 10 11 paymentEx dbEx2 rfl

/-- C4: looking up, by the returned record's id, the store that a
successful create produced yields exactly the record create returned
(`getById(create(req).id) = create(req)`), provided the generated id is
fresh (the uniqueness the spec assumes of generated identifiers). -/
theorem C4_roundtrip (db : Db) (req : CreatePaymentRequest) (i tx : Uuid)
    (t1 t2 : Timestamp) (p : Payment) (db2 : Db)
    (hfresh : ∀ q ∈ db.rows, q.id ≠ i)
    (h : create_payment db req i tx t1 t2 = .ok (p, db2)) :
    get_payment db2 p.id = .ok p := by
  unfold create_payment at h
  by_cases hh : db.healthy = true
  · rw [if_pos hh] at h
    simp only [Except.ok.injEq, Prod.mk.injEq] at h
    obtain ⟨rfl, rfl⟩ := h
    have hid : (newPayment req i tx t1 t2).id = i := rfl
    unfold get_payment
    simp only [hh, if_true]
    rw [find_append_fresh db.rows (newPayment req i tx t1 t2)
      (fun q hq h2 => hfresh q hq (h2.trans hid))]
  · rw [if_neg hh] at h
    exact absurd h (by simp)

/-- C4 witness: the concrete round trip through the healthy empty store. -/
theorem C4_roundtrip_wit : get_payment dbEx2 paymentEx.id = .ok paymentEx :=
  C4_roundtrip dbEx reqEx 3 4 10 11 paymentEx dbEx2 (by simp [dbEx]) rfl

/-- C5: no creation request can carry the decimal amount 49.99 exactly,
because dto.rs declares `amount` as `f64` and every finite `f64` value is
a dyadic rational, which 4999/100 is not — the request and response legs
are binary floating point, contradicting the exact-decimal requirement. -/
theorem C5_no_exact_decimal_amount :
    ∀ r : CreatePaymentRequest, r.amount.val ≠ 4999 / 100 := by
  intro r h
  obtain ⟨m, e, hme⟩ := r.amount.property
  rw [h] at hme
  have hpow : ((2 : ℚ) ^ e) ≠ 0 := pow_ne_zero e two_ne_zero
  have hq : (4999 : ℚ) * 2 ^ e = m * 100 :=
    (div_eq_div_iff (by norm_num) hpow).mp hme
  have hz : (4999 : ℤ) * 2 ^ e = m * 100 := by exact_mod_cast hq
  have h5 : (5 : ℤ) ∣ 4999 * 2 ^ e := ⟨m * 20, by rw [hz]; ring⟩
  have hp : Prime (5 : ℤ) := by
    rw [Int.prime_iff_natAbs_prime]
    norm_num
  rcases hp.dvd_mul.mp h5 with h49 | hpow5
  · omega
  · have h52 : (5 : ℤ) ∣ 2 := hp.dvd_of_dvd_pow hpow5
    omega

/-- C7 counterexample: on an unreachable persistence layer the lookup
service call fails with a connection failure, yet the handler surfaces
`NOT_FOUND` — the same transport status as a missing record, not an
internal-error status. -/
theorem C7_storage_failure_not_found :
    get_payment downDb 7 = .error .connectionFailure ∧
      handle_get_payment downDb 7 = .error .NOT_FOUND ∧
      StatusCode.NOT_FOUND ≠ StatusCode.INTERNAL_SERVER_ERROR :=
  ⟨rfl, rfl, by decide⟩

/-- C7 amended: both lookup handlers map every service failure — missing
record and persistence failure alike — to the not-found transport status;
the two failure kinds are not distinguishable in the transport response. -/
theorem C7_lookup_amended (db : Db) (i oid : Uuid) :
    (∀ e, get_payment db i = .error e →
      handle_get_payment db i = .error .NOT_FOUND) ∧
    (∀ e, get_payment_by_order db oid = .error e →
      handle_get_payment_by_order db oid = .error .NOT_FOUND) ∧
    (∀ p, get_payment db i = .ok p →
      handle_get_payment db i = .ok (ApiResponse.mkSuccess (paymentToResponse p))) ∧
    (∀ p, get_payment_by_order db oid = .ok p →
      handle_get_payment_by_order db oid
        = .ok (ApiResponse.mkSuccess (paymentToResponse p))) := by
  refine ⟨?_, ?_, ?_, ?_⟩ <;> intro x h <;>
    simp [handle_get_payment, handle_get_payment_by_order, h]

/-- C8 counterexample: a malformed creation request is answered with a
bare client-error status, not with the envelope's failure shape. -/
theorem C8_malformed_no_envelope :
    (create_payment_route dbEx .malformed 3 4 10 11).1
        = .bare .UNPROCESSABLE_ENTITY ∧
      ¬ ∃ st env, (create_payment_route dbEx .malformed 3 4 10 11).1
        = .envelope st env := by
  refine ⟨rfl, ?_⟩
  rintro ⟨st, env, h⟩
  simp [create_payment_route] at h

/-- C8 amended: a malformed creation request is rejected by the `Json`
extractor with a client-error status and a plain (non-envelope) body, and
the only envelope any create outcome carries is the success shape — no
path produces the envelope's failure shape. -/
theorem C8_create_error_shape_amended (db : Db) (i tx : Uuid)
    (t1 t2 : Timestamp) :
    create_payment_route db .malformed i tx t1 t2
        = (.bare .UNPROCESSABLE_ENTITY, db) ∧
      (∀ body st env,
        (create_payment_route db body i tx t1 t2).1 = .envelope st env →
          env.success = true ∧ env.message = "Success" ∧
            env.data.isSome = true) := by
  refine ⟨rfl, ?_⟩
  intro body st env h
  cases body with
  | malformed => simp [create_payment_route] at h
  | parsed req =>
    cases hc : create_payment db req i tx t1 t2 with
    | error e => simp [create_payment_route, hc] at h
    | ok pd =>
      obtain ⟨p2, db2⟩ := pd
      simp only [create_payment_route, hc, Wire.envelope.injEq] at h
      obtain ⟨-, rfl⟩ := h
      exact ⟨rfl, rfl, rfl⟩

/-- C10: the two envelope constructors produce: success flag true, message
`"Success"` and a present payload for the success envelope; success flag
false and no payload for the error envelope — in both, the success flag is
true exactly when a payload is present. -/
theorem C10_envelope_invariant (T : Type) (d : T) (msg : String) :
    (ApiResponse.mkSuccess d).success = true ∧
      (ApiResponse.mkSuccess d).message = "Success" ∧
      (ApiResponse.mkSuccess d).data = some d ∧
      (@ApiResponse.mkError T msg).success = false ∧
      (@ApiResponse.mkError T msg).message = msg ∧
      (@ApiResponse.mkError T msg).data = none ∧
      ((ApiResponse.mkSuccess d).success = true ↔
        ((ApiResponse.mkSuccess d).data).isSome = true) ∧
      ((@ApiResponse.mkError T msg).success = true ↔
        ((@ApiResponse.mkError T msg).data).isSome = true) := by
  simp [ApiResponse.mkSuccess, ApiResponse.mkError]

/-- C2 counterexample: on a success-shaped transport response whose
payload fails to deserialize, `validate_token` returns an error (the `?`
on `response.json()`), not the value `false` the claim requires. -/
theorem C2_malformed_payload_errs :
    validate_token malformedOk = .error .decodeFailure ∧
      validate_token malformedOk ≠ .ok false ∧
      validate_token malformedOk ≠ .ok true := by
  refine ⟨rfl, ?_, ?_⟩ <;> intro h <;>
    simp [validate_token, malformedOk] at h

/-- C2 amended: `validate_token` returns true iff the transport response
is success-shaped and its payload deserializes with status `"success"` and
an embedded valid flag true; a non-success transport response or a
deserialized payload without that flag yields false; a transport send
failure yields the send-failure error; and a malformed payload on a
success-shaped response yields the decode-failure error (not false). -/
theorem C2_validate_token_amended (t : Transport) :
    (validate_token t = .error .sendFailure ↔ t = .unreachable) ∧
      (validate_token t = .error .decodeFailure ↔
        t = .response ⟨true, .malformed⟩) ∧
      (validate_token t = .ok true ↔
        ∃ r, t = .response ⟨true, .parsed r⟩ ∧
          (r.status == "success"
            && (r.data.map (fun d => d.valid)).getD false) = true) ∧
      (validate_token t = .ok false ↔
        ((∃ resp, t = .response resp ∧ resp.isSuccess = false) ∨
          ∃ r, t = .response ⟨true, .parsed r⟩ ∧
            (r.status == "success"
              && (r.data.map (fun d => d.valid)).getD false) = false)) := by
  cases t with
  | unreachable => simp [validate_token]
  | response resp =>
    obtain ⟨suc, body⟩ := resp
    cases suc with
    | false => simp [validate_token]
    | true =>
      cases body with
      | malformed => simp [validate_token]
      | parsed r => simp [validate_token]

/-- C6 counterexample: on a success-shaped transport response whose
parsed payload reports `status = "error"` but still carries a `data`
object, `get_user_id_from_token` returns that userId, not empty — it
never consults the payload's status field. -/
theorem C6_subject_ignores_status :
    get_user_id_from_token badStatusPayload = .ok (some "user-1") ∧
      get_user_id_from_token badStatusPayload ≠ .ok none := by
  refine ⟨rfl, ?_⟩
  intro h
  simp [get_user_id_from_token, badStatusPayload] at h

/-- C6 amended: `get_user_id_from_token` returns a subject identifier
exactly when the transport response is success-shaped and its payload
deserializes carrying a `data` object — regardless of the payload's
status field; it returns empty on a non-success transport response or a
payload without `data`, errors with the send failure when the transport
call cannot complete, and errors with the decode failure on a malformed
payload. -/
theorem C6_resolve_subject_amended (t : Transport) :
    (∀ s, get_user_id_from_token t = .ok (some s) ↔
      ∃ r, t = .response ⟨true, .parsed r⟩ ∧
        ∃ d, r.data = some d ∧ d.user_id = s) ∧
      (get_user_id_from_token t = .error .sendFailure ↔ t = .unreachable) ∧
      (get_user_id_from_token t = .error .decodeFailure ↔
        t = .response ⟨true, .malformed⟩) ∧
      (∀ resp, t = .response resp → resp.isSuccess = false →
        get_user_id_from_token t = .ok none) := by
  cases t with
  | unreachable => simp [get_user_id_from_token]
  | response resp =>
    obtain ⟨suc, body⟩ := resp
    cases suc with
    | false => simp [get_user_id_from_token]
    | true =>
      cases body with
      | malformed => simp [get_user_id_from_token]
      | parsed r =>
        refine ⟨?_, by simp [get_user_id_from_token], by simp [get_user_id_from_token], by simp⟩
        intro s
        cases hd : r.data with
        | none => simp [get_user_id_from_token, hd]
        | some d => simp [get_user_id_from_token, hd, eq_comm]

/-- C3: the request gate is never installed: main.rs wires the payment
routes with only a CORS layer, so a create request carrying no
`Authorization` header at all still reaches the handler and performs the
storage write and returns the success envelope — even though
`auth_middleware`, had it been attached, rejects a headerless request for
every possible authority behaviour. -/
theorem C3_gate_never_installed :
    create_route_as_wired dbEx none (.parsed reqEx) 3 4 10 11
        = (.envelope .OK (ApiResponse.mkSuccess (paymentToResponse paymentEx)),
          dbEx2) ∧
      dbEx2.rows = dbEx.rows ++ [paymentEx] ∧
      ∀ v2, auth_middleware none v2 = .unauthorized :=
  ⟨rfl, rfl, fun _ => rfl⟩

/-- C9: token extraction succeeds exactly on header values that are the
case-sensitive characters `"Bearer "` followed by the token; any value
not of that exact shape is rejected with 401 for every possible authority
behaviour (the gateway is never consulted), in particular the lowercase
`"bearer x"`. -/
theorem C9_bearer_exact (v : List Char) :
    (∀ tok, extractToken (some (.valid v)) = some tok ↔
      v = bearerChars ++ tok) ∧
      (extractToken (some (.valid v)) = none →
        ∀ v2, auth_middleware (some (.valid v)) v2 = .unauthorized) ∧
      (∀ v2, auth_middleware (some (.valid lowerBearer)) v2 = .unauthorized) := by
  refine ⟨?_, ?_, ?_⟩
  · intro tok
    exact stripPre_eq_some bearerChars v tok
  · intro h v2
    simp [auth_middleware, h]
  · intro v2
    have h : extractToken (some (.valid lowerBearer)) = none := by decide
    simp [auth_middleware, h]
